import Mathlib

/-
Verification of the homework-status polling bot (src/homework.py) against its
specification.  The Python module is shallowly embedded: JSON/Python values
become the inductive `PyVal`, raised exceptions become `Except PyError`,
logging and outbound calls become an explicit `BotAction` trace, and the outcome
of each external call (HTTP request, Telegram delivery) is an oracle input to
the loop step.
-/

set_option autoImplicit false

/-- A Python value as it can appear in a deserialized JSON API response:
`None`, a string, an integer, a list, or a string-keyed dict (association
list, first binding wins on lookup). -/
inductive PyVal where
  | none
  | str (s : String)
  | int (n : Int)
  | list (xs : List PyVal)
  | dict (entries : List (String × PyVal))

mutual

/-- Structural equality of Python values (`==` on these value types). -/
def PyVal.beq : PyVal → PyVal → Bool
  | PyVal.none, PyVal.none => true
  | PyVal.str a, PyVal.str b => a == b
  | PyVal.int a, PyVal.int b => a == b
  | PyVal.list xs, PyVal.list ys => PyVal.beqList xs ys
  | PyVal.dict xs, PyVal.dict ys => PyVal.beqDict xs ys
  | _, _ => false

/-- Elementwise equality of two lists of Python values. -/
def PyVal.beqList : List PyVal → List PyVal → Bool
  | [], [] => true
  | x :: xs, y :: ys => PyVal.beq x y && PyVal.beqList xs ys
  | _, _ => false

/-- Entrywise equality of two dict entry lists. -/
def PyVal.beqDict : List (String × PyVal) → List (String × PyVal) → Bool
  | [], [] => true
  | (k1, v1) :: xs, (k2, v2) :: ys => k1 == k2 && PyVal.beq v1 v2 && PyVal.beqDict xs ys
  | _, _ => false

end

instance : BEq PyVal := ⟨PyVal.beq⟩

/-- The exception kinds raised by the module: built-in `TypeError`,
`KeyError`, `ValueError`, and the custom `APIError` and `TokenError` from
`exceptions.py`.  Each carries the message it was constructed with. -/
inductive PyError where
  | typeError (msg : String)
  | keyError (msg : String)
  | valueError (msg : String)
  | apiError (msg : String)
  | tokenError (msg : String)
  deriving DecidableEq, Repr

/-- `str(exception)` as interpolated by `f'... {error}'`: `KeyError` renders
its message argument in quotes (CPython reprs the key), the other kinds
render the bare message. -/
def errStr : PyError → String
  | PyError.typeError m => m
  | PyError.keyError m => "\x27" ++ m ++ "\x27"
  | PyError.valueError m => m
  | PyError.apiError m => m
  | PyError.tokenError m => m

/-- Python truthiness of a value (`if homeworks:` / `if send_message(...):`). -/
def pyTruthy : PyVal → Bool
  | PyVal.none => false
  | PyVal.str s => !(s == "")
  | PyVal.int n => !(n == 0)
  | PyVal.list xs => !xs.isEmpty
  | PyVal.dict es => !es.isEmpty

/-- `d.get(key, default)`: the stored value when the key is present (even when
that value is `None`), the default otherwise. -/
def pyDictGet (entries : List (String × PyVal)) (key : String) (default : PyVal) : PyVal :=
  match entries.find? (fun p => p.1 == key) with
  | some p => p.2
  | Option.none => default

/-- `d.get(key)`: `None` both when the key is absent and when it maps to
`None` — the conflation `check_response` relies on. -/
def pyGet (entries : List (String × PyVal)) (key : String) : PyVal :=
  pyDictGet entries key PyVal.none

/-- `key in container` for a string key: dict key membership, list element
membership, substring test on a string, `TypeError` on non-iterables. -/
def pyContains (container : PyVal) (key : String) : Except PyError Bool :=
  match container with
  | PyVal.dict entries => Except.ok (entries.find? (fun p => p.1 == key)).isSome
  | PyVal.list xs => Except.ok (xs.any (fun v => v == PyVal.str key))
  | PyVal.str s => Except.ok (decide ((s.splitOn key).length > 1))
  | PyVal.int _ => Except.error (PyError.typeError "argument of type \x27int\x27 is not iterable")
  | PyVal.none => Except.error (PyError.typeError "argument of type \x27NoneType\x27 is not iterable")

/-- `container[key]` for a string key: dict lookup (`KeyError` when absent),
`TypeError` on every other container type. -/
def pyGetItem (container : PyVal) (key : String) : Except PyError PyVal :=
  match container with
  | PyVal.dict entries =>
    match entries.find? (fun p => p.1 == key) with
    | some p => Except.ok p.2
    | Option.none => Except.error (PyError.keyError key)
  | PyVal.str _ => Except.error (PyError.typeError "string indices must be integers")
  | PyVal.list _ => Except.error (PyError.typeError "list indices must be integers or slices, not str")
  | _ => Except.error (PyError.typeError "object is not subscriptable")

mutual

/-- `repr` of a value, as Python would print it inside an f-string via `str`
of a container. -/
def pyRepr : PyVal → String
  | PyVal.none => "None"
  | PyVal.str s => "\x27" ++ s ++ "\x27"
  | PyVal.int n => toString n
  | PyVal.list xs => "[" ++ pyReprList xs ++ "]"
  | PyVal.dict es => "\x7b" ++ pyReprDict es ++ "\x7d"

/-- Comma-separated reprs of list elements. -/
def pyReprList : List PyVal → String
  | [] => ""
  | [x] => pyRepr x
  | x :: xs => pyRepr x ++ ", " ++ pyReprList xs

/-- Comma-separated `key: value` reprs of dict entries. -/
def pyReprDict : List (String × PyVal) → String
  | [] => ""
  | [(k, v)] => "\x27" ++ k ++ "\x27: " ++ pyRepr v
  | (k, v) :: es => "\x27" ++ k ++ "\x27: " ++ pyRepr v ++ ", " ++ pyReprDict es

end

/-- `str(v)` as used by f-string interpolation: a string interpolates as
itself, every other value as its repr. -/
def pyStr : PyVal → String
  | PyVal.str s => s
  | v => pyRepr v

/-- `type(v)` as it renders inside an error message. -/
def pyTypeName : PyVal → String
  | PyVal.none => "NoneType"
  | PyVal.str _ => "str"
  | PyVal.int _ => "int"
  | PyVal.list _ => "list"
  | PyVal.dict _ => "dict"

/-- The `<class '...'>` rendering of `type(v)`. -/
def pyTypeStr (v : PyVal) : String :=
  "<class \x27" ++ pyTypeName v ++ "\x27>"

/-- `RETRY_PERIOD = 600`: the fixed sleep interval in seconds. -/
def RETRY_PERIOD : Nat := 600

/-- `HOMEWORK_VERDICTS`: the fixed three-entry verdict table, in source
order. -/
def HOMEWORK_VERDICTS : List (String × String) :=
  [("approved", "Работа проверена: ревьюеру всё понравилось. Ура!"),
   ("reviewing", "Работа взята на проверку ревьюером."),
   ("rejected", "Работа проверена: у ревьюера есть замечания.")]

/-- Everything a loop iteration does to the outside world: the HTTP request
(with the `from_date` value it sends), a `bot.send_message` call, a log line
at each level, and the final sleep. -/
inductive BotAction where
  | apiCall (from_date : PyVal)
  | sendAttempt (message : String)
  | logDebug (s : String)
  | logError (s : String)
  | logCritical (s : String)
  | sleep (seconds : Nat)

/-- The three environment values read at import time; `Option.none` models an
unset variable. -/
structure Config where
  PRACTICUM_TOKEN : Option String
  TELEGRAM_TOKEN : Option String
  TELEGRAM_CHAT_ID : Option String

/-- Python truthiness of an environment value: unset or empty is falsy, which
is what `if not token_value:` tests. -/
def envTruthy : Option String → Bool
  | Option.none => false
  | some s => !(s == "")

/-- `check_tokens()`: walks the three tokens in dict order, logs one critical
line per missing one, raises `TokenError` listing every missing name, and
debug-logs when all are present.  Returns the log trace together with the
normal/raised outcome. -/
def check_tokens (cfg : Config) : List BotAction × Except PyError Unit :=
  let tokens := [("PRACTICUM_TOKEN", cfg.PRACTICUM_TOKEN),
                 ("TELEGRAM_TOKEN", cfg.TELEGRAM_TOKEN),
                 ("TELEGRAM_CHAT_ID", cfg.TELEGRAM_CHAT_ID)]
  let missing_tokens := (tokens.filter (fun p => !envTruthy p.2)).map Prod.fst
  let logs := missing_tokens.map
    (fun n => BotAction.logCritical ("Отсутствует переменная окружения: " ++ n))
  if missing_tokens.isEmpty then
    (logs ++ [BotAction.logDebug "Все переменные окружения в наличии."], Except.ok ())
  else
    (logs, Except.error (PyError.tokenError
      ("Отсутствуют переменные окружения: " ++ String.intercalate ", " missing_tokens)))

/-- The outcome of one `bot.send_message` call, as seen by `send_message`:
it returns, or raises one of the two caught exception types. -/
inductive SendOutcome where
  | success
  | apiException (e : String)
  | requestException (e : String)

/-- `send_message(bot, message)`: debug-logs, attempts delivery, debug-logs
success or error-logs a caught `ApiException`/`RequestException`.  Every path
falls off the end of the function, so the Python return value is `None`. -/
def send_message (outcome : SendOutcome) (message : String) : List BotAction × PyVal :=
  match outcome with
  | SendOutcome.success =>
      ([BotAction.logDebug ("Начинается отправка сообщения: " ++ message),
        BotAction.sendAttempt message,
        BotAction.logDebug ("Успешная отправка сообщения: " ++ message)], PyVal.none)
  | SendOutcome.apiException e =>
      ([BotAction.logDebug ("Начинается отправка сообщения: " ++ message),
        BotAction.sendAttempt message,
        BotAction.logError ("Ошибка при отправке сообщения: " ++ e)], PyVal.none)
  | SendOutcome.requestException e =>
      ([BotAction.logDebug ("Начинается отправка сообщения: " ++ message),
        BotAction.sendAttempt message,
        BotAction.logError ("Ошибка при отправке сообщения: " ++ e)], PyVal.none)

/-- The outcome of the `requests.get` call inside `get_api_answer`: a raised
`RequestException`, or a response with an HTTP status code and JSON body. -/
inductive HttpOutcome where
  | exn (e : String)
  | status (code : Nat) (body : PyVal)

/-- `get_api_answer(timestamp)`: wraps a transport exception in `APIError`,
raises `APIError` on a non-200 status code, and otherwise returns the JSON
body unvalidated. -/
def get_api_answer (outcome : HttpOutcome) : Except PyError PyVal :=
  match outcome with
  | HttpOutcome.exn e =>
      Except.error (PyError.apiError ("Ошибка при запросе к API: " ++ e))
  | HttpOutcome.status code body =>
      if code == 200 then Except.ok body
      else Except.error (PyError.apiError ("Ошибка API: код ответа " ++ toString code))

/-- `check_response(response)`: `TypeError` on a non-dict, `KeyError` when
`response.get('homeworks')` is `None` (absent key or `None` value),
`TypeError` when the value is not a list, else the list unchanged. -/
def check_response (response : PyVal) : Except PyError (List PyVal) :=
  match response with
  | PyVal.dict entries =>
    match pyGet entries "homeworks" with
    | PyVal.none =>
        Except.error (PyError.keyError "Ключ \"homeworks\" отсутствует в ответе API")
    | PyVal.list xs => Except.ok xs
    | v =>
        Except.error (PyError.typeError
          ("Тип данных \"homeworks\" некорректен: " ++ pyTypeStr v ++ ", ожидался список"))
  | v =>
      Except.error (PyError.typeError
        ("Ответ API имеет некорректный тип: " ++ pyTypeStr v ++ ", ожидался словарь"))

/-- `status in HOMEWORK_VERDICTS` followed by the table lookup: an unhashable
status raises `TypeError`, a recognized string status yields its verdict,
anything else yields no verdict. -/
def verdictLookup (status : PyVal) : Except PyError (Option String) :=
  match status with
  | PyVal.str s => Except.ok ((HOMEWORK_VERDICTS.find? (fun p => p.1 == s)).map Prod.snd)
  | PyVal.list _ => Except.error (PyError.typeError "unhashable type: \x27list\x27")
  | PyVal.dict _ => Except.error (PyError.typeError "unhashable type: \x27dict\x27")
  | _ => Except.ok Option.none

/-- `parse_status(homework)`: checks `homework_name` membership, then
`status` membership, reads both values, rejects a status outside the verdict
table with `ValueError`, and formats the notification string. -/
def parse_status (homework : PyVal) : Except PyError String :=
  match pyContains homework "homework_name" with
  | Except.error e => Except.error e
  | Except.ok false =>
      Except.error (PyError.keyError
        "Ключ \"homework_name\" отсутствует в информации о домашней работе")
  | Except.ok true =>
    match pyContains homework "status" with
    | Except.error e => Except.error e
    | Except.ok false =>
        Except.error (PyError.keyError
          "Ключ \"status\" отсутствует в информации о домашней работе")
    | Except.ok true =>
      match pyGetItem homework "homework_name" with
      | Except.error e => Except.error e
      | Except.ok homework_name =>
        match pyGetItem homework "status" with
        | Except.error e => Except.error e
        | Except.ok status =>
          match verdictLookup status with
          | Except.error e => Except.error e
          | Except.ok Option.none =>
              Except.error (PyError.valueError
                ("Неизвестный статус работы: " ++ pyStr status))
          | Except.ok (some verdict) =>
              Except.ok ("Изменился статус проверки работы \"" ++ pyStr homework_name
                ++ "\". " ++ verdict)

/-- The mutable state of `main`: the poll cursor `timestamp` (a Python value,
initially `int(time.time())`) and the `last_error_message` cache. -/
structure LoopState where
  timestamp : PyVal
  last_error_message : String

/-- The oracle inputs consumed by one loop iteration: the HTTP outcome of
`get_api_answer` and the delivery outcome of the (at most one) `send_message`
call made this iteration. -/
structure IterInput where
  http : HttpOutcome
  send : SendOutcome

/-- The `except Exception` handler of `main`: formats the error message,
error-logs it, and when it differs from the cache calls `send_message`,
updating the cache only if that call returns a truthy value. -/
def handleError (send : SendOutcome) (st : LoopState) (e : PyError) : LoopState × List BotAction :=
  let message := "Сбой в работе программы: " ++ errStr e
  if message ≠ st.last_error_message then
    let res := send_message send message
    if pyTruthy res.2 then
      ({ st with last_error_message := message }, BotAction.logError message :: res.1)
    else
      (st, BotAction.logError message :: res.1)
  else
    (st, [BotAction.logError message])

/-- The dict entries of a response already validated by `check_response`
(which guarantees it is a dict). -/
def dictEntriesOf : PyVal → List (String × PyVal)
  | PyVal.dict es => es
  | _ => []

/-- The `try`/`except` body of one iteration of `main`'s `while True` loop:
API call, response validation, parsing of the first record, notification with
cursor advancement gated on the truthiness of `send_message`'s return value,
and the error handler. -/
def mainBody (inp : IterInput) (st : LoopState) : LoopState × List BotAction :=
  match get_api_answer inp.http with
  | Except.error e =>
      let h := handleError inp.send st e
      (h.1, BotAction.apiCall st.timestamp :: h.2)
  | Except.ok response =>
    match check_response response with
    | Except.error e =>
        let h := handleError inp.send st e
        (h.1, BotAction.apiCall st.timestamp :: h.2)
    | Except.ok homeworks =>
      match homeworks with
      | [] => (st, [BotAction.apiCall st.timestamp, BotAction.logDebug "Новых статусов нет."])
      | hw :: _ =>
        match parse_status hw with
        | Except.error e =>
            let h := handleError inp.send st e
            (h.1, BotAction.apiCall st.timestamp :: h.2)
        | Except.ok message =>
          let res := send_message inp.send message
          if pyTruthy res.2 then
            ({ timestamp := pyDictGet (dictEntriesOf response) "current_date" st.timestamp,
               last_error_message := "" },
             BotAction.apiCall st.timestamp :: res.1)
          else
            (st, BotAction.apiCall st.timestamp :: res.1
              ++ [BotAction.logError "Не удалось отправить сообщение в Telegram."])

/-- One full iteration of the loop: the `try`/`except` body followed by the
unconditional `finally: time.sleep(RETRY_PERIOD)`. -/
def mainStep (inp : IterInput) (st : LoopState) : LoopState × List BotAction :=
  let body := mainBody inp st
  (body.1, body.2 ++ [BotAction.sleep RETRY_PERIOD])

/-- Several consecutive loop iterations, one oracle input per iteration,
with the concatenated action trace. -/
def mainRun : List IterInput → LoopState → LoopState × List BotAction
  | [], st => (st, [])
  | inp :: rest, st =>
    let r1 := mainStep inp st
    let r2 := mainRun rest r1.1
    (r2.1, r1.2 ++ r2.2)

/-- The result of the monitored pipeline of one iteration (API call,
validation, parsing of the first record): the error the `except` block
receives, or the parsed message (`Option.none` when there are no records). -/
def iterOutcome (inp : IterInput) : Except PyError (Option String) :=
  match get_api_answer inp.http with
  | Except.error e => Except.error e
  | Except.ok response =>
    match check_response response with
    | Except.error e => Except.error e
    | Except.ok [] => Except.ok Option.none
    | Except.ok (hw :: _) =>
      match parse_status hw with
      | Except.error e => Except.error e
      | Except.ok m => Except.ok (some m)

/-- How many `bot.send_message` calls a trace contains. -/
def countSendAttempts (acts : List BotAction) : Nat :=
  (acts.filter (fun a => match a with
    | BotAction.sendAttempt _ => true
    | _ => false)).length

/-- The `bot.send_message` calls of a trace, in order. -/
def sendAttempts (acts : List BotAction) : List BotAction :=
  acts.filter (fun a => match a with
    | BotAction.sendAttempt _ => true
    | _ => false)

/-- Specification-side list of the missing configuration names, stated
independently of `check_tokens`: each of the three names appears exactly when
its value is unset or empty. -/
def missingSpec (cfg : Config) : List String :=
  (if envTruthy cfg.PRACTICUM_TOKEN then [] else ["PRACTICUM_TOKEN"])
    ++ (if envTruthy cfg.TELEGRAM_TOKEN then [] else ["TELEGRAM_TOKEN"])
    ++ (if envTruthy cfg.TELEGRAM_CHAT_ID then [] else ["TELEGRAM_CHAT_ID"])

/-- The last element of a trace extended by one action. -/
theorem getLast?_of_concat {α : Type} (l : List α) (a : α) : (l ++ [a]).getLast? = some a := by
  induction l with
  | nil => rfl
  | cons x xs ih =>
    rw [List.cons_append, List.getLast?_cons]
    simp [ih]

/-- `send_message` falls off the end of the Python function on every path, so
its value is `None`. -/
theorem send_message_snd (o : SendOutcome) (m : String) :
    (send_message o m).2 = PyVal.none := by
  cases o <;> rfl

/-- The return value of `send_message` is always falsy. -/
theorem pyTruthy_send_message (o : SendOutcome) (m : String) :
    pyTruthy (send_message o m).2 = false := by
  cases o <;> rfl

/-- Every call to `send_message` attempts one delivery. -/
theorem sendAttempt_mem_send_message (o : SendOutcome) (m : String) :
    BotAction.sendAttempt m ∈ (send_message o m).1 := by
  cases o <;> simp [send_message]

/-- The error handler never changes the loop state: the cache update is
guarded by the truthiness of `send_message`'s return value. -/
theorem handleError_fst (o : SendOutcome) (st : LoopState) (e : PyError) :
    (handleError o st e).1 = st := by
  unfold handleError
  by_cases h : ("Сбой в работе программы: " ++ errStr e) ≠ st.last_error_message
  · rw [if_pos h]
    dsimp only
    rw [pyTruthy_send_message]
    simp
  · rw [if_neg h]

/-- When the formatted error differs from the cache, the handler attempts a
notification carrying exactly that message. -/
theorem handleError_attempt (o : SendOutcome) (st : LoopState) (e : PyError)
    (h : "Сбой в работе программы: " ++ errStr e ≠ st.last_error_message) :
    BotAction.sendAttempt ("Сбой в работе программы: " ++ errStr e) ∈ (handleError o st e).2 := by
  unfold handleError
  rw [if_pos h]
  dsimp only
  rw [pyTruthy_send_message]
  simp only [Bool.false_eq_true, if_false]
  exact List.mem_cons_of_mem _ (sendAttempt_mem_send_message o _)

/-- The loop body never changes the state: every branch that would, is
guarded by the truthiness of `send_message`'s `None` return value. -/
theorem mainBody_fst (inp : IterInput) (st : LoopState) :
    (mainBody inp st).1 = st := by
  unfold mainBody
  split
  · exact handleError_fst inp.send st _
  split
  · exact handleError_fst inp.send st _
  split
  · rfl
  split
  · exact handleError_fst inp.send st _
  · dsimp only
    rw [pyTruthy_send_message]
    simp

/-- Claim C3: `send_message` always returns `None` — on delivery success as
well as on a caught delivery failure — so its value is always falsy and the
`if send_message(...)` branches of `main` (cursor advancement, cache
update/clear) are never taken: no iteration ever changes the loop state. -/
theorem send_message_returns_none_so_state_frozen :
    (∀ (o : SendOutcome) (m : String),
      (send_message o m).2 = PyVal.none ∧ pyTruthy (send_message o m).2 = false) ∧
    (∀ (inp : IterInput) (st : LoopState), (mainStep inp st).1 = st) := by
  constructor
  · intro o m
    exact ⟨send_message_snd o m, pyTruthy_send_message o m⟩
  · intro inp st
    show (mainBody inp st).1 = st
    exact mainBody_fst inp st

/-- Claim C4: `check_tokens` logs one critical line per missing configuration
value, raises `TokenError` naming exactly the missing names (and no others)
whenever at least one is missing, and succeeds with only a debug log when
none are. -/
theorem check_tokens_names_exactly_missing (cfg : Config) :
    (check_tokens cfg).1 =
      (missingSpec cfg).map
        (fun n => BotAction.logCritical ("Отсутствует переменная окружения: " ++ n))
      ++ (if missingSpec cfg = []
          then [BotAction.logDebug "Все переменные окружения в наличии."] else []) ∧
    (check_tokens cfg).2 =
      (if missingSpec cfg = [] then Except.ok ()
       else Except.error (PyError.tokenError
         ("Отсутствуют переменные окружения: "
           ++ String.intercalate ", " (missingSpec cfg)))) := by
  obtain ⟨a, b, c⟩ := cfg
  unfold check_tokens missingSpec
  cases ha : envTruthy a <;> cases hb : envTruthy b <;> cases hc : envTruthy c <;>
    simp [ha, hb, hc, String.intercalate]

/-- Claim C5: for every homework record (dict) containing both
`homework_name` and `status`, the status being one of the three recognized
ones, `parse_status` returns the notification string carrying the name and
the exact verdict text of the table. -/
theorem parse_status_recognized (hw : List (String × PyVal)) (name s verdict : String)
    (h1 : pyContains (PyVal.dict hw) "homework_name" = Except.ok true)
    (h2 : pyContains (PyVal.dict hw) "status" = Except.ok true)
    (h3 : pyGetItem (PyVal.dict hw) "homework_name" = Except.ok (PyVal.str name))
    (h4 : pyGetItem (PyVal.dict hw) "status" = Except.ok (PyVal.str s))
    (h5 : HOMEWORK_VERDICTS.find? (fun p => p.1 == s) = some (s, verdict)) :
    parse_status (PyVal.dict hw) =
      Except.ok ("Изменился статус проверки работы \"" ++ name ++ "\". " ++ verdict) := by
  unfold parse_status verdictLookup
  rw [h1, h2, h3, h4]
  dsimp only
  rw [h5]
  rfl

/-- Claim C5 witness: a concrete approved record. -/
theorem parse_status_recognized_witness :
    parse_status (PyVal.dict
        [("homework_name", PyVal.str "hw1"), ("status", PyVal.str "approved")]) =
      Except.ok
        "Изменился статус проверки работы \"hw1\". Работа проверена: ревьюеру всё понравилось. Ура!" :=
  parse_status_recognized
    [("homework_name", PyVal.str "hw1"), ("status", PyVal.str "approved")]
    "hw1" "approved" "Работа проверена: ревьюеру всё понравилось. Ура!"
    rfl rfl rfl rfl rfl

/-- Claim C6: `parse_status` raises `KeyError` naming `homework_name` when
that key is missing, `KeyError` naming `status` when only that key is
missing, and `ValueError` naming the unrecognized value when both keys are
present but the status string is outside the verdict table. -/
theorem parse_status_failure_cases :
    (∀ hw : PyVal, pyContains hw "homework_name" = Except.ok false →
      parse_status hw = Except.error (PyError.keyError
        "Ключ \"homework_name\" отсутствует в информации о домашней работе")) ∧
    (∀ hw : PyVal, pyContains hw "homework_name" = Except.ok true →
      pyContains hw "status" = Except.ok false →
      parse_status hw = Except.error (PyError.keyError
        "Ключ \"status\" отсутствует в информации о домашней работе")) ∧
    (∀ (hw v : PyVal) (s : String),
      pyContains hw "homework_name" = Except.ok true →
      pyContains hw "status" = Except.ok true →
      pyGetItem hw "homework_name" = Except.ok v →
      pyGetItem hw "status" = Except.ok (PyVal.str s) →
      HOMEWORK_VERDICTS.find? (fun p => p.1 == s) = Option.none →
      parse_status hw = Except.error (PyError.valueError
        ("Неизвестный статус работы: " ++ s))) := by
  refine ⟨?_, ?_, ?_⟩
  · intro hw h1
    unfold parse_status
    rw [h1]
  · intro hw h1 h2
    unfold parse_status
    rw [h1, h2]
  · intro hw v s h1 h2 h3 h4 h5
    unfold parse_status verdictLookup
    rw [h1, h2, h3, h4]
    dsimp only
    rw [h5]
    rfl

/-- Claim C6 witness: the three failure shapes on concrete records. -/
theorem parse_status_failure_cases_witness :
    parse_status (PyVal.dict [("status", PyVal.str "approved")]) =
      Except.error (PyError.keyError
        "Ключ \"homework_name\" отсутствует в информации о домашней работе") ∧
    parse_status (PyVal.dict [("homework_name", PyVal.str "hw1")]) =
      Except.error (PyError.keyError
        "Ключ \"status\" отсутствует в информации о домашней работе") ∧
    parse_status (PyVal.dict
        [("homework_name", PyVal.str "hw1"), ("status", PyVal.str "oddball")]) =
      Except.error (PyError.valueError "Неизвестный статус работы: oddball") :=
  ⟨parse_status_failure_cases.1 _ rfl,
   parse_status_failure_cases.2.1 _ rfl rfl,
   parse_status_failure_cases.2.2 _ (PyVal.str "hw1") "oddball" rfl rfl rfl rfl rfl⟩

/-- Claim C10: when both keys are missing, the checks run in source order, so
the raised error names `homework_name`. -/
theorem parse_status_missing_both_names_homework_name (hw : PyVal)
    (h1 : pyContains hw "homework_name" = Except.ok false)
    (h2 : pyContains hw "status" = Except.ok false) :
    parse_status hw = Except.error (PyError.keyError
      "Ключ \"homework_name\" отсутствует в информации о домашней работе") := by
  unfold parse_status
  rw [h1]

/-- Claim C10 witness: the empty record misses both keys. -/
theorem parse_status_missing_both_witness :
    parse_status (PyVal.dict []) = Except.error (PyError.keyError
      "Ключ \"homework_name\" отсутствует в информации о домашней работе") :=
  parse_status_missing_both_names_homework_name (PyVal.dict []) rfl rfl

/-- Claim C9: when the `homeworks` key is present but bound to `None`,
`check_response` reports the key as absent (`KeyError`), not a type
mismatch: `response.get('homeworks')` conflates the two cases. -/
theorem check_response_null_homeworks (entries : List (String × PyVal))
    (h : entries.find? (fun p => p.1 == "homeworks") = some ("homeworks", PyVal.none)) :
    check_response (PyVal.dict entries) =
      Except.error (PyError.keyError "Ключ \"homeworks\" отсутствует в ответе API") := by
  unfold check_response pyGet pyDictGet
  dsimp only
  rw [h]

/-- Claim C9 witness: a response whose `homeworks` is explicitly `None`. -/
theorem check_response_null_homeworks_witness :
    check_response (PyVal.dict [("homeworks", PyVal.none)]) =
      Except.error (PyError.keyError "Ключ \"homeworks\" отсутствует в ответе API") :=
  check_response_null_homeworks [("homeworks", PyVal.none)] rfl

/-- Claim C7: `check_response` returns a list-valued `homeworks` unchanged
(including the empty list), raises `TypeError` on a non-dict response,
`KeyError` when the `homeworks` key is absent, and `TypeError` when the
`homeworks` value is neither a list nor `None` (e.g. a string or number). -/
theorem check_response_validation :
    (∀ (entries : List (String × PyVal)) (xs : List PyVal),
      pyGet entries "homeworks" = PyVal.list xs →
      check_response (PyVal.dict entries) = Except.ok xs) ∧
    (∀ v : PyVal, (∀ es : List (String × PyVal), v ≠ PyVal.dict es) →
      check_response v = Except.error (PyError.typeError
        ("Ответ API имеет некорректный тип: " ++ pyTypeStr v ++ ", ожидался словарь"))) ∧
    (∀ entries : List (String × PyVal),
      entries.find? (fun p => p.1 == "homeworks") = Option.none →
      check_response (PyVal.dict entries) =
        Except.error (PyError.keyError "Ключ \"homeworks\" отсутствует в ответе API")) ∧
    (∀ (entries : List (String × PyVal)) (v : PyVal),
      pyGet entries "homeworks" = v →
      (∀ xs : List PyVal, v ≠ PyVal.list xs) → v ≠ PyVal.none →
      check_response (PyVal.dict entries) = Except.error (PyError.typeError
        ("Тип данных \"homeworks\" некорректен: " ++ pyTypeStr v ++ ", ожидался список"))) := by
  refine ⟨?_, ?_, ?_, ?_⟩
  · intro entries xs h
    unfold check_response
    dsimp only
    rw [h]
  · intro v hv
    cases v with
    | dict es => exact absurd rfl (hv es)
    | none => rfl
    | str s => rfl
    | int n => rfl
    | list xs => rfl
  · intro entries h
    unfold check_response pyGet pyDictGet
    dsimp only
    rw [h]
  · intro entries v h hlist hnone
    unfold check_response
    dsimp only
    rw [h]
    cases v with
    | none => exact absurd rfl hnone
    | list xs => exact absurd rfl (hlist xs)
    | str s => rfl
    | int n => rfl
    | dict es => rfl

/-- Claim C7 witness: the four shapes on concrete responses. -/
theorem check_response_validation_witness :
    check_response (PyVal.dict [("homeworks", PyVal.list [])]) = Except.ok [] ∧
    check_response (PyVal.list []) = Except.error (PyError.typeError
      ("Ответ API имеет некорректный тип: <class \x27list\x27>, ожидался словарь")) ∧
    check_response (PyVal.dict [("current_date", PyVal.int 7)]) =
      Except.error (PyError.keyError "Ключ \"homeworks\" отсутствует в ответе API") ∧
    check_response (PyVal.dict [("homeworks", PyVal.str "oops")]) =
      Except.error (PyError.typeError
        ("Тип данных \"homeworks\" некорректен: <class \x27str\x27>, ожидался список")) :=
  ⟨check_response_validation.1 [("homeworks", PyVal.list [])] [] rfl,
   check_response_validation.2.1 (PyVal.list []) (fun es h => by cases h),
   check_response_validation.2.2.1 [("current_date", PyVal.int 7)] rfl,
   check_response_validation.2.2.2 [("homeworks", PyVal.str "oops")] (PyVal.str "oops")
     rfl (fun xs h => by cases h) (fun h => by cases h)⟩

/-- Claim C1 (refuted by the code): in an iteration whose API call succeeds
with `current_date: 1000`, whose response validates, whose one-record list
parses, and whose notification is delivered (the send attempt happens and
success is debug-logged), the cursor still stays at 500 instead of advancing
to 1000 — `send_message` returns `None`, so the advancement branch is dead
and the iteration even error-logs a delivery failure that did not happen. -/
theorem cursor_stuck_despite_successful_delivery :
    mainStep
      ⟨HttpOutcome.status 200 (PyVal.dict
        [("homeworks", PyVal.list [PyVal.dict
           [("homework_name", PyVal.str "hw1"), ("status", PyVal.str "approved")]]),
         ("current_date", PyVal.int 1000)]),
       SendOutcome.success⟩
      ⟨PyVal.int 500, ""⟩ =
    (⟨PyVal.int 500, ""⟩,
     [BotAction.apiCall (PyVal.int 500),
      BotAction.logDebug
        "Начинается отправка сообщения: Изменился статус проверки работы \"hw1\". Работа проверена: ревьюеру всё понравилось. Ура!",
      BotAction.sendAttempt
        "Изменился статус проверки работы \"hw1\". Работа проверена: ревьюеру всё понравилось. Ура!",
      BotAction.logDebug
        "Успешная отправка сообщения: Изменился статус проверки работы \"hw1\". Работа проверена: ревьюеру всё понравилось. Ура!",
      BotAction.logError "Не удалось отправить сообщение в Telegram.",
      BotAction.sleep RETRY_PERIOD]) ∧
    (PyVal.int 500 : PyVal) ≠ PyVal.int 1000 := by
  refine ⟨rfl, ?_⟩
  intro h
  exact absurd (PyVal.int.inj h) (by decide)

/-- Claim C2 (refuted by the code): two consecutive iterations raising the
same error make two notification attempts with the identical message, not
one — the cache update `last_error_message = message` is guarded by
`send_message`'s `None` return value and never executes. -/
theorem duplicate_error_notified_twice :
    sendAttempts
      (mainRun
        [⟨HttpOutcome.exn "boom", SendOutcome.success⟩,
         ⟨HttpOutcome.exn "boom", SendOutcome.success⟩]
        ⟨PyVal.int 0, ""⟩).2 =
      [BotAction.sendAttempt "Сбой в работе программы: Ошибка при запросе к API: boom",
       BotAction.sendAttempt "Сбой в работе программы: Ошибка при запросе к API: boom"] ∧
    countSendAttempts
      (mainRun
        [⟨HttpOutcome.exn "boom", SendOutcome.success⟩,
         ⟨HttpOutcome.exn "boom", SendOutcome.success⟩]
        ⟨PyVal.int 0, ""⟩).2 = 2 :=
  ⟨rfl, rfl⟩

/-- Every error the monitored pipeline can produce is turned by the handler
into a notification attempt when its formatted message differs from the
cache. -/
theorem mainBody_error_attempt (inp : IterInput) (st : LoopState) (e : PyError)
    (hout : iterOutcome inp = Except.error e)
    (hne : "Сбой в работе программы: " ++ errStr e ≠ st.last_error_message) :
    BotAction.sendAttempt ("Сбой в работе программы: " ++ errStr e) ∈ (mainBody inp st).2 := by
  unfold iterOutcome at hout
  unfold mainBody
  rcases hapi : get_api_answer inp.http with eA | resp
  · rw [hapi] at hout
    cases hout
    dsimp only
    exact List.mem_cons_of_mem _ (handleError_attempt inp.send st e hne)
  rw [hapi] at hout
  dsimp only at hout ⊢
  rcases hcr : check_response resp with eC | homeworks
  · rw [hcr] at hout
    cases hout
    exact List.mem_cons_of_mem _ (handleError_attempt inp.send st e hne)
  rw [hcr] at hout
  rcases homeworks with _ | ⟨hw, rest⟩
  · exact absurd hout (by simp)
  dsimp only at hout ⊢
  rcases hps : parse_status hw with eP | message
  · rw [hps] at hout
    cases hout
    exact List.mem_cons_of_mem _ (handleError_attempt inp.send st e hne)
  · rw [hps] at hout
    exact absurd hout (by simp)

/-- Claim C8: every pipeline error of an iteration is caught and, when it
differs from the cached message, converted into a notification attempt; the
notifier swallows both caught delivery-error kinds (returning `None` after
error-logging them); and every iteration — error or not — ends with the
fixed 600-second sleep. -/
theorem loop_never_crashes :
    (∀ (inp : IterInput) (st : LoopState),
      (mainStep inp st).2.getLast? = some (BotAction.sleep RETRY_PERIOD)) ∧
    (∀ (inp : IterInput) (st : LoopState) (e : PyError),
      iterOutcome inp = Except.error e →
      "Сбой в работе программы: " ++ errStr e ≠ st.last_error_message →
      BotAction.sendAttempt ("Сбой в работе программы: " ++ errStr e) ∈ (mainStep inp st).2) ∧
    (∀ (o : SendOutcome) (m : String),
      (send_message o m).2 = PyVal.none ∧ BotAction.sendAttempt m ∈ (send_message o m).1) ∧
    (∀ e m : String,
      (send_message (SendOutcome.apiException e) m).1.getLast? =
        some (BotAction.logError ("Ошибка при отправке сообщения: " ++ e)) ∧
      (send_message (SendOutcome.requestException e) m).1.getLast? =
        some (BotAction.logError ("Ошибка при отправке сообщения: " ++ e))) := by
  refine ⟨?_, ?_, ?_, ?_⟩
  · intro inp st
    exact getLast?_of_concat (mainBody inp st).2 (BotAction.sleep RETRY_PERIOD)
  · intro inp st e hout hne
    exact List.mem_append_left _ (mainBody_error_attempt inp st e hout hne)
  · intro o m
    exact ⟨send_message_snd o m, sendAttempt_mem_send_message o m⟩
  · intro e m
    exact ⟨rfl, rfl⟩

/-- Claim C8 witness: a concrete failing API call is notified and the
iteration ends sleeping. -/
theorem loop_never_crashes_witness :
    (mainStep ⟨HttpOutcome.exn "down", SendOutcome.success⟩ ⟨PyVal.int 0, ""⟩).2.getLast? =
      some (BotAction.sleep RETRY_PERIOD) ∧
    BotAction.sendAttempt "Сбой в работе программы: Ошибка при запросе к API: down" ∈
      (mainStep ⟨HttpOutcome.exn "down", SendOutcome.success⟩ ⟨PyVal.int 0, ""⟩).2 :=
  ⟨loop_never_crashes.1 ⟨HttpOutcome.exn "down", SendOutcome.success⟩ ⟨PyVal.int 0, ""⟩,
   loop_never_crashes.2.1 ⟨HttpOutcome.exn "down", SendOutcome.success⟩ ⟨PyVal.int 0, ""⟩
     (PyError.apiError "Ошибка при запросе к API: down") rfl (by decide)⟩
